import Mathlib

/-!
Shallow embedding of the loyalty-program backend
(src/models/loyalty.py and src/routes/loyalty.py).

Python floats and the monetary amounts are modelled as rationals (ℚ),
Python ints as ℤ, strings as Lean `String` (or `List Char` where the code
works character-by-character).  The SQLAlchemy record store is modelled as
an explicit list of records threaded through the operations; `datetime.utcnow()`
is modelled as an explicit `now : ℕ` parameter.  Each method of the Python
code that calls `LoyaltyConfig.get_current_config()` internally is modelled
as taking the active configuration as an explicit parameter (the route
handlers fetch the same active configuration for every call inside one
request).
-/

namespace Kaseirim

/-- The loyalty configuration record (`class LoyaltyConfig` in
src/models/loyalty.py).  Field defaults are the column defaults of the
source.  `benefit_type` is a string in the source ('points', 'discount',
'cashback'), kept as a string here. -/
structure LoyaltyConfig where
  benefit_type : String := "points"
  points_per_real : ℚ := 10
  silver_threshold : ℤ := 500
  gold_threshold : ℤ := 1500
  diamond_threshold : ℤ := 3000
  bronze_discount : ℚ := 5
  silver_discount : ℚ := 10
  gold_discount : ℚ := 15
  diamond_discount : ℚ := 20
  welcome_message : String := "Bem-vindo ao programa de fidelidade Kaseirim!"
  promotion_message_template : String :=
    "Olá \x7bname\x7d! Você tem \x7bpoints\x7d pontos. Aproveite nossa promoção especial!"
  active : Bool := true
deriving DecidableEq

/-- The customer record (`class Customer` in src/models/loyalty.py).
`level` is the cached tier string ('Bronze', 'Prata', 'Ouro', 'Diamante'),
`cpf` and `phone` are stored digits-only as lists of characters. -/
structure Customer where
  full_name : String
  cpf : List Char
  phone : List Char
  email : String
  points : ℤ := 0
  total_spent : ℚ := 0
  level : String := "Bronze"
  last_visit : ℕ := 0
  active : Bool := true
deriving DecidableEq

/-- The transaction record (`class Transaction` in src/models/loyalty.py). -/
structure Transaction where
  customer_id : ℕ
  amount : ℚ
  points_earned : ℤ
  benefit_value : ℚ
  benefit_type : String := "points"
  description : String
deriving DecidableEq

/-- `re.sub(r'\D', '', s)` — strip every non-digit character. -/
def digitsOnly (s : List Char) : List Char :=
  s.filter (fun ch => ch.isDigit)

/-- `Customer.format_cpf`: if the digits-only form of the stored cpf has
exactly 11 digits, group as XXX.XXX.XXX-XX, else return the stored cpf
unchanged. -/
def format_cpf (raw : List Char) : List Char :=
  let cpf := digitsOnly raw
  if cpf.length = 11 then
    cpf.take 3 ++ ['.'] ++ (cpf.drop 3).take 3 ++ ['.'] ++ (cpf.drop 6).take 3
      ++ ['-'] ++ cpf.drop 9
  else raw

/-- `Customer.get_level`: four-way threshold comparison evaluated
diamond-first, against the active configuration. -/
def Customer.get_level (c : Customer) (config : LoyaltyConfig) : String :=
  if c.points ≥ config.diamond_threshold then "Diamante"
  else if c.points ≥ config.gold_threshold then "Ouro"
  else if c.points ≥ config.silver_threshold then "Prata"
  else "Bronze"

/-- `Customer.get_discount`: table lookup of the benefit percent for the
customer's (freshly recomputed) level; the dictionary `.get` defaults to
the bronze percent. -/
def Customer.get_discount (c : Customer) (config : LoyaltyConfig) : ℚ :=
  let level := c.get_level config
  if level = "Bronze" then config.bronze_discount
  else if level = "Prata" then config.silver_discount
  else if level = "Ouro" then config.gold_discount
  else if level = "Diamante" then config.diamond_discount
  else config.bronze_discount

/-- `Customer.points_to_next_level`: gap to the next unreached threshold,
evaluated silver-first. -/
def Customer.points_to_next_level (c : Customer) (config : LoyaltyConfig) : ℤ :=
  if c.points < config.silver_threshold then config.silver_threshold - c.points
  else if c.points < config.gold_threshold then config.gold_threshold - c.points
  else if c.points < config.diamond_threshold then config.diamond_threshold - c.points
  else 0

/-- `Customer.add_points`: adds `int(amount_spent // config.points_per_real)`
points (the three `benefit_type` branches of the source compute the same
thing), accumulates `total_spent`, recomputes the cached `level`, stamps
`last_visit`, and returns the points added together with the mutated
customer. -/
def Customer.add_points (c : Customer) (config : LoyaltyConfig)
    (amount_spent : ℚ) (now : ℕ) : ℤ × Customer :=
  let points_to_add : ℤ :=
    if config.benefit_type = "points" then
      Int.floor (amount_spent / config.points_per_real)
    else if config.benefit_type = "cashback" then
      Int.floor (amount_spent / config.points_per_real)
    else
      Int.floor (amount_spent / config.points_per_real)
  let c1 : Customer := { c with points := c.points + points_to_add }
  let c2 : Customer := { c1 with total_spent := c1.total_spent + amount_spent }
  let c3 : Customer := { c2 with level := c2.get_level config, last_visit := now }
  (points_to_add, c3)

/-- `Customer.calculate_benefit_value`: for 'discount' and 'cashback' the
benefit is `amount_spent * (percent / 100)` with the customer untouched;
the else-branch ('points' and anything else) calls `add_points` — a state
mutation — and returns the points added.  Returns the benefit value and
the (possibly mutated) customer. -/
def Customer.calculate_benefit_value (c : Customer) (config : LoyaltyConfig)
    (amount_spent : ℚ) (now : ℕ) : ℚ × Customer :=
  if config.benefit_type = "discount" then
    (amount_spent * (c.get_discount config / 100), c)
  else if config.benefit_type = "cashback" then
    (amount_spent * (c.get_discount config / 100), c)
  else
    let r := c.add_points config amount_spent now
    ((r.1 : ℚ), r.2)

/-- The default configuration materialised by `get_current_config` when no
active configuration exists: `LoyaltyConfig()` with all column defaults. -/
def defaultConfig : LoyaltyConfig := {}

/-- `LoyaltyConfig.get_current_config`: first record flagged active in the
store; if none exists, a default configuration is created, persisted and
returned.  Returns the configuration together with the (possibly grown)
store. -/
def get_current_config (store : List LoyaltyConfig) :
    LoyaltyConfig × List LoyaltyConfig :=
  match store.find? (fun cfg => cfg.active) with
  | some cfg => (cfg, store)
  | none => (defaultConfig, store ++ [defaultConfig])

/-- `int(str_digit)` for a single character, as Python reads a decimal
digit character. -/
def charDigitVal (ch : Char) : ℕ := ch.toNat - 48

/-- The character Python prints for a single decimal digit value. -/
def natDigitChar (n : ℕ) : Char := Char.ofNat (48 + n)

/-- First checksum digit of `validate_cpf`:
`sum1 = sum(int(cpf[i]) * (10 - i) for i in range(9))`,
`digit1 = 11 - (sum1 % 11)`, clamped to 0 when ≥ 10. -/
def cpf_digit1 (c : List Char) : ℕ :=
  let sum1 := ((List.range 9).map (fun i => charDigitVal (c.getD i '0') * (10 - i))).sum
  let d := 11 - (sum1 % 11)
  if d ≥ 10 then 0 else d

/-- Second checksum digit of `validate_cpf`:
`sum2 = sum(int(cpf[i]) * (11 - i) for i in range(10))`,
`digit2 = 11 - (sum2 % 11)`, clamped to 0 when ≥ 10. -/
def cpf_digit2 (c : List Char) : ℕ :=
  let sum2 := ((List.range 10).map (fun i => charDigitVal (c.getD i '0') * (11 - i))).sum
  let d := 11 - (sum2 % 11)
  if d ≥ 10 then 0 else d

/-- `validate_cpf` from src/routes/loyalty.py: digits-only form must have
exactly 11 digits, must not be 11 copies of one digit, and the last two
characters must equal the two checksum digits. -/
def validate_cpf (cpf : List Char) : Bool :=
  let c := digitsOnly cpf
  if c.length ≠ 11 then false
  else if c = List.replicate 11 c.headI then false
  else decide (c.drop 9 = [natDigitChar (cpf_digit1 c), natDigitChar (cpf_digit2 c)])

/-- `create_customer` (POST /customers): validates presence of name, cpf
and phone, normalises and checksum-validates the cpf, rejects duplicates,
then constructs a `Customer` with the requested initial points and all
remaining column defaults (in particular `level = 'Bronze'`).  Returns the
created customer and the grown store. -/
def create_customer (existing : List Customer) (full_name : String)
    (cpf_in phone_in : List Char) (email : String) (points : ℤ) :
    Except String (Customer × List Customer) :=
  if full_name = "" then Except.error "Nome completo é obrigatório"
  else if cpf_in = [] then Except.error "CPF é obrigatório"
  else if phone_in = [] then Except.error "Telefone é obrigatório"
  else
    let cpf := digitsOnly cpf_in
    if validate_cpf cpf = false then Except.error "CPF inválido"
    else if (existing.find? (fun c => c.cpf = cpf)).isSome then
      Except.error "CPF já cadastrado"
    else
      let phone := digitsOnly phone_in
      let customer : Customer :=
        { full_name := full_name, cpf := cpf, phone := phone, email := email,
          points := points }
      Except.ok (customer, existing ++ [customer])

/-- `update_customer` (PUT /customers/id): partial field merge; an edit of
`points` also recomputes the cached `level`. -/
def update_customer (c : Customer) (config : LoyaltyConfig)
    (full_name : Option String) (phone : Option (List Char))
    (email : Option String) (points : Option ℤ) : Customer :=
  let c1 := match full_name with
    | some n => { c with full_name := n }
    | none => c
  let c2 := match phone with
    | some p => { c1 with phone := digitsOnly p }
    | none => c1
  let c3 := match email with
    | some e => { c2 with email := e }
    | none => c2
  match points with
  | some p =>
      let cp : Customer := { c3 with points := p }
      { cp with level := cp.get_level config }
  | none => c3

/-- `add_transaction` (POST /customers/id/transactions): rejects a
non-positive amount before any mutation; otherwise calls `add_points`,
then `calculate_benefit_value` (which mutates again in 'points' mode),
and builds the immutable transaction record. -/
def add_transaction (c : Customer) (config : LoyaltyConfig)
    (customer_id : ℕ) (amount : ℚ) (description : String) (now : ℕ) :
    Except String (Transaction × Customer) :=
  if amount ≤ 0 then Except.error "Valor deve ser maior que zero"
  else
    let r1 := c.add_points config amount now
    let r2 := r1.2.calculate_benefit_value config amount now
    Except.ok
      ({ customer_id := customer_id, amount := amount,
         points_earned := r1.1, benefit_value := r2.1,
         benefit_type := config.benefit_type, description := description },
       r2.2)

/-- Numeric rank of the four tier strings, Bronze < Prata < Ouro <
Diamante; used only to state monotonicity of `get_level`. -/
def levelRank (s : String) : ℕ :=
  if s = "Diamante" then 3
  else if s = "Ouro" then 2
  else if s = "Prata" then 1
  else 0

/-- A concrete customer used to instantiate the theorems: zero points, zero
spend, a checksum-valid cpf. -/
def sampleCustomer : Customer :=
  { full_name := "A", cpf := "12345678909".toList,
    phone := "11987654321".toList, email := "" }

/-- A concrete transaction record used only to instantiate statements. -/
def sampleTransaction : Transaction :=
  { customer_id := 1, amount := 100, points_earned := 10, benefit_value := 10,
    description := "" }

/-- Closed form of `add_transaction` on a positive amount. -/
theorem add_transaction_pos (c : Customer) (config : LoyaltyConfig)
    (cid now : ℕ) (amount : ℚ) (d : String) (h : ¬ amount ≤ 0) :
    add_transaction c config cid amount d now =
      Except.ok
        ({ customer_id := cid, amount := amount,
           points_earned := (c.add_points config amount now).1,
           benefit_value := ((c.add_points config amount now).2.calculate_benefit_value
             config amount now).1,
           benefit_type := config.benefit_type, description := d },
         ((c.add_points config amount now).2.calculate_benefit_value config amount now).2) := by
  unfold add_transaction
  rw [if_neg h]

/-- The three `benefit_type` branches of `add_points` coincide: closed form
of the mutation. -/
theorem add_points_eq (c : Customer) (config : LoyaltyConfig) (a : ℚ) (n : ℕ) :
    c.add_points config a n =
      (Int.floor (a / config.points_per_real),
       { c with points := c.points + Int.floor (a / config.points_per_real),
                total_spent := c.total_spent + a,
                level := Customer.get_level
                  { c with points := c.points + Int.floor (a / config.points_per_real) }
                  config,
                last_visit := n }) := by
  unfold Customer.add_points
  split_ifs <;> rfl

/-- The customer returned by `add_points` carries a freshly recomputed
cached level. -/
theorem add_points_level_fresh (c : Customer) (config : LoyaltyConfig)
    (a : ℚ) (n : ℕ) :
    ((c.add_points config a n).2).level
      = ((c.add_points config a n).2).get_level config := by
  rw [add_points_eq]
  rfl

/-- `calculate_benefit_value` in 'discount' mode: pure percent formula, no
mutation. -/
theorem calculate_benefit_value_discount (c : Customer) (config : LoyaltyConfig)
    (a : ℚ) (n : ℕ) (h : config.benefit_type = "discount") :
    c.calculate_benefit_value config a n = (a * (c.get_discount config / 100), c) := by
  unfold Customer.calculate_benefit_value
  rw [if_pos h]

/-- `calculate_benefit_value` in 'cashback' mode: the same percent formula,
no mutation. -/
theorem calculate_benefit_value_cashback (c : Customer) (config : LoyaltyConfig)
    (a : ℚ) (n : ℕ) (h : config.benefit_type = "cashback") :
    c.calculate_benefit_value config a n = (a * (c.get_discount config / 100), c) := by
  unfold Customer.calculate_benefit_value
  rw [if_neg (by rw [h]; decide), if_pos h]

/-- `calculate_benefit_value` preserves a fresh cached level: if the input
customer's stored level is the recomputed one, so is the output
customer's. -/
theorem calculate_benefit_value_level_fresh (c : Customer) (config : LoyaltyConfig)
    (a : ℚ) (n : ℕ) (h : c.level = c.get_level config) :
    ((c.calculate_benefit_value config a n).2).level
      = ((c.calculate_benefit_value config a n).2).get_level config := by
  unfold Customer.calculate_benefit_value
  split_ifs
  · exact h
  · exact h
  · exact add_points_level_fresh c config a n

/-- C1: the claim says every benefit mode mutates the customer by exactly
`floor(A / pointsPerCurrencyUnit)` points and `A` of spend, and that under
the default policy posting amount 100 from 0 points ends with
pointsEarned = 10 and totalSpent = 100.  The code disagrees in the default
('points') mode: `add_transaction` calls `add_points` and then
`calculate_benefit_value`, whose 'points' branch calls `add_points` a
second time, so the customer ends with 20 points and totalSpent = 200
while the transaction records pointsEarned = 10. -/
theorem C1_points_mode_double_mutation :
    (add_transaction sampleCustomer defaultConfig 1 100 "" 5).toOption.map
      (fun p => (p.1.points_earned, p.2.points, p.2.total_spent, p.2.level))
      = some (10, 20, 200, "Bronze") := by
  norm_num +decide [add_transaction, Customer.add_points,
    Customer.calculate_benefit_value, Customer.get_discount, Customer.get_level,
    defaultConfig, sampleCustomer, Except.toOption]

/-- C2: with default thresholds and benefitMode = Discount, a customer at
exactly 500 points posting amount 10 (pointsPerCurrencyUnit = 10) ends with
501 points and tier Prata (Silver), and the returned benefit value is 1
(the Silver percent 10 looked up after the mutation).  The second conjunct
shows the lookup really uses the post-transaction tier: a customer at 499
points (pre-transaction percent 5, which would give 0.5) is promoted to
Prata by the same posting and still receives benefit value 1. -/
theorem C2_discount_post_transaction_tier :
    ((add_transaction { sampleCustomer with points := 500 }
        { defaultConfig with benefit_type := "discount" } 1 10 "" 5).toOption.map
      (fun p => (p.2.points, p.2.level, p.1.benefit_value)) = some (501, "Prata", 1))
    ∧ ((add_transaction { sampleCustomer with points := 499 }
        { defaultConfig with benefit_type := "discount" } 1 10 "" 5).toOption.map
      (fun p => (p.2.points, p.2.level, p.1.benefit_value)) = some (500, "Prata", 1))
    ∧ (Customer.get_discount { sampleCustomer with points := 499 }
        { defaultConfig with benefit_type := "discount" }) = 5 := by
  refine ⟨?_, ?_, ?_⟩ <;>
    norm_num +decide [add_transaction, Customer.add_points,
      Customer.calculate_benefit_value, Customer.get_discount, Customer.get_level,
      defaultConfig, sampleCustomer, Except.toOption]

/-- C3 counterexample: registration with initial points 600 under the
default policy succeeds but stores the default level 'Bronze', while
recomputing the tier from the points gives 'Prata' — the cached tier is
stale right after registration, refuting the claim as stated. -/
theorem C3_registration_stale_level :
    (create_customer [] "A" ("12345678909".toList) ("11987654321".toList) "" 600).toOption.map
      (fun p => decide (p.1.level = p.1.get_level defaultConfig)) = some false := by
  norm_num +decide [create_customer, validate_cpf, digitsOnly, cpf_digit1,
    cpf_digit2, charDigitVal, natDigitChar, Customer.get_level, defaultConfig,
    Except.toOption]

/-- C3 (amended): after an administrative points edit and after a
successful transaction post the stored tier equals the recomputed tier;
registration, however, always stores the constructor default 'Bronze'
regardless of the initial points. -/
theorem C3_tier_cache_amended (c : Customer) (config : LoyaltyConfig)
    (fn0 : Option String) (ph0 : Option (List Char)) (em0 : Option String)
    (p : ℤ) (cid now : ℕ) (amount : ℚ) (d : String)
    (store : List Customer) (fn : String) (cpf ph : List Char) (em : String)
    (p0 : ℤ) (tx : Transaction) (c2 : Customer) (cust : Customer)
    (st2 : List Customer) :
    ((update_customer c config fn0 ph0 em0 (some p)).level
      = (update_customer c config fn0 ph0 em0 (some p)).get_level config)
    ∧ (add_transaction c config cid amount d now = Except.ok (tx, c2) →
        c2.level = c2.get_level config)
    ∧ (create_customer store fn cpf ph em p0 = Except.ok (cust, st2) →
        cust.level = "Bronze") := by
  refine ⟨?_, ?_, ?_⟩
  · unfold update_customer
    cases fn0 <;> cases ph0 <;> cases em0 <;> rfl
  · intro h
    simp only [add_transaction] at h
    split_ifs at h
    rw [Except.ok.injEq, Prod.mk.injEq] at h
    rw [← h.2]
    exact calculate_benefit_value_level_fresh _ config amount now
      (add_points_level_fresh c config amount now)
  · intro h
    simp only [create_customer] at h
    split_ifs at h
    rw [Except.ok.injEq, Prod.mk.injEq] at h
    rw [← h.1]

/-- C3 witness: the amended statement instantiated at concrete inputs. -/
theorem C3_tier_cache_amended_witness :
    ((update_customer sampleCustomer defaultConfig none none none (some 600)).level
      = (update_customer sampleCustomer defaultConfig none none none
          (some 600)).get_level defaultConfig)
    ∧ (add_transaction sampleCustomer defaultConfig 1 100 "" 5
        = Except.ok (sampleTransaction, sampleCustomer) →
        sampleCustomer.level = sampleCustomer.get_level defaultConfig)
    ∧ (create_customer [] "A" ("12345678909".toList) ("11987654321".toList) "" 600
        = Except.ok (sampleCustomer, [sampleCustomer]) →
        sampleCustomer.level = "Bronze") :=
  C3_tier_cache_amended sampleCustomer defaultConfig none none none 600 1 5 100 ""
    [] "A" ("12345678909".toList) ("11987654321".toList) "" 600
    sampleTransaction sampleCustomer sampleCustomer [sampleCustomer]

/-- C6: a transaction with non-positive amount is rejected with the
validation error before any mutation: the operation returns the error and
produces no transaction record and no updated customer. -/
theorem C6_nonpositive_amount_rejected (c : Customer) (config : LoyaltyConfig)
    (cid now : ℕ) (amount : ℚ) (d : String) (h : amount ≤ 0) :
    add_transaction c config cid amount d now
      = Except.error "Valor deve ser maior que zero" := by
  unfold add_transaction
  rw [if_pos h]

/-- C4: for thresholds with silver ≤ gold ≤ diamond, `get_level` is
monotonic non-decreasing in the points (Bronze < Prata < Ouro < Diamante
by `levelRank`), and its result is always one of the four tier strings. -/
theorem C4_get_level_monotone (config : LoyaltyConfig) (c1 c2 : Customer)
    (hsg : config.silver_threshold ≤ config.gold_threshold)
    (hgd : config.gold_threshold ≤ config.diamond_threshold)
    (hp : c1.points ≤ c2.points) :
    levelRank (c1.get_level config) ≤ levelRank (c2.get_level config)
    ∧ (c1.get_level config = "Bronze" ∨ c1.get_level config = "Prata"
        ∨ c1.get_level config = "Ouro" ∨ c1.get_level config = "Diamante") := by
  unfold Customer.get_level
  split_ifs <;> first | decide | (exfalso; omega)

/-- C4 witness: the default thresholds, customers at 0 and 1000 points. -/
theorem C4_get_level_monotone_witness :
    levelRank (sampleCustomer.get_level defaultConfig)
      ≤ levelRank (Customer.get_level { sampleCustomer with points := 1000 } defaultConfig)
    ∧ (sampleCustomer.get_level defaultConfig = "Bronze"
        ∨ sampleCustomer.get_level defaultConfig = "Prata"
        ∨ sampleCustomer.get_level defaultConfig = "Ouro"
        ∨ sampleCustomer.get_level defaultConfig = "Diamante") :=
  C4_get_level_monotone defaultConfig sampleCustomer
    { sampleCustomer with points := 1000 } (by decide) (by decide) (by decide)

/-- C5: for thresholds with silver ≤ gold ≤ diamond, `points_to_next_level`
is 0 exactly when the points are at or past the diamond threshold;
otherwise it is strictly positive and equals the distance to the first
threshold (in the order silver, gold, diamond) the customer has not yet
reached. -/
theorem C5_points_to_next_level_gap (config : LoyaltyConfig) (c : Customer)
    (hsg : config.silver_threshold ≤ config.gold_threshold)
    (hgd : config.gold_threshold ≤ config.diamond_threshold) :
    (c.points_to_next_level config = 0 ↔ config.diamond_threshold ≤ c.points)
    ∧ (c.points < config.diamond_threshold →
        0 < c.points_to_next_level config
        ∧ c.points_to_next_level config
            = ([config.silver_threshold, config.gold_threshold,
                config.diamond_threshold].find?
                (fun t => decide (c.points < t))).getD 0 - c.points) := by
  unfold Customer.points_to_next_level
  split_ifs with h1 h2 h3 <;> simp_all <;> omega

/-- C5 witness: the default thresholds and a customer at 0 points
(gap 500 to the silver threshold). -/
theorem C5_points_to_next_level_gap_witness :
    (sampleCustomer.points_to_next_level defaultConfig = 0
      ↔ defaultConfig.diamond_threshold ≤ sampleCustomer.points)
    ∧ (sampleCustomer.points < defaultConfig.diamond_threshold →
        0 < sampleCustomer.points_to_next_level defaultConfig
        ∧ sampleCustomer.points_to_next_level defaultConfig
            = ([defaultConfig.silver_threshold, defaultConfig.gold_threshold,
                defaultConfig.diamond_threshold].find?
                (fun t => decide (sampleCustomer.points < t))).getD 0
              - sampleCustomer.points) :=
  C5_points_to_next_level_gap defaultConfig sampleCustomer (by decide) (by decide)

/-- C6 witness: amounts 0 and -5 are both rejected. -/
theorem C6_nonpositive_amount_rejected_witness :
    add_transaction sampleCustomer defaultConfig 1 0 "" 5
      = Except.error "Valor deve ser maior que zero"
    ∧ add_transaction sampleCustomer defaultConfig 1 (-5) "" 5
      = Except.error "Valor deve ser maior que zero" :=
  ⟨C6_nonpositive_amount_rejected sampleCustomer defaultConfig 1 5 0 "" (by norm_num),
   C6_nonpositive_amount_rejected sampleCustomer defaultConfig 1 5 (-5) "" (by norm_num)⟩

/-- C7: for every customer state, policy and positive amount, the
'discount' and 'cashback' modes compute the same benefit value — both the
percent formula `amount * (percent / 100)` with the customer untouched —
and posting a transaction under the two modes yields the same mutated
customer and transaction records that differ only in the `benefit_type`
label. -/
theorem C7_discount_cashback_equivalent (c : Customer) (config : LoyaltyConfig)
    (amount : ℚ) (cid now : ℕ) (d : String) (h : 0 < amount) :
    c.calculate_benefit_value { config with benefit_type := "discount" } amount now
      = (amount * (c.get_discount config / 100), c)
    ∧ c.calculate_benefit_value { config with benefit_type := "cashback" } amount now
      = (amount * (c.get_discount config / 100), c)
    ∧ ∃ txD custD txC custC,
        add_transaction c { config with benefit_type := "discount" } cid amount d now
          = Except.ok (txD, custD)
        ∧ add_transaction c { config with benefit_type := "cashback" } cid amount d now
          = Except.ok (txC, custC)
        ∧ custD = custC
        ∧ txC = { txD with benefit_type := "cashback" } := by
  have hne : ¬ amount ≤ 0 := not_le.mpr h
  refine ⟨calculate_benefit_value_discount c _ amount now rfl,
          calculate_benefit_value_cashback c _ amount now rfl,
          _, _, _, _, add_transaction_pos c _ cid now amount d hne,
          add_transaction_pos c _ cid now amount d hne, ?_, ?_⟩
  · rfl
  · rfl

/-- `digitsOnly` distributes over append. -/
theorem digitsOnly_append (a b : List Char) :
    digitsOnly (a ++ b) = digitsOnly a ++ digitsOnly b := by
  unfold digitsOnly
  exact List.filter_append a b

/-- `digitsOnly` is the identity on all-digit strings. -/
theorem digitsOnly_of_all_digits (l : List Char) (h : ∀ ch ∈ l, ch.isDigit) :
    digitsOnly l = l := by
  unfold digitsOnly
  exact List.filter_eq_self.mpr h

/-- `digitsOnly` is idempotent. -/
theorem digitsOnly_idem (l : List Char) :
    digitsOnly (digitsOnly l) = digitsOnly l :=
  digitsOnly_of_all_digits _ (fun _ hch => (List.mem_filter.mp hch).2)

/-- `validate_cpf` rejects any input whose digits-only form is eleven
copies of one digit (the explicit all-equal-digits guard). -/
theorem validate_cpf_all_same (y : List Char) (ch : Char)
    (h : digitsOnly y = List.replicate 11 ch) :
    validate_cpf y = false := by
  simp only [validate_cpf, h]
  rw [if_neg (by simp)]
  rw [if_pos (show List.replicate 11 ch
    = List.replicate 11 (List.replicate 11 ch).headI from rfl)]

/-- C7 witness: the equivalence instantiated at the sample customer, the
default policy fields and amount 100. -/
theorem C7_discount_cashback_equivalent_witness :
    sampleCustomer.calculate_benefit_value
        { defaultConfig with benefit_type := "discount" } 100 5
      = (100 * (sampleCustomer.get_discount defaultConfig / 100), sampleCustomer)
    ∧ sampleCustomer.calculate_benefit_value
        { defaultConfig with benefit_type := "cashback" } 100 5
      = (100 * (sampleCustomer.get_discount defaultConfig / 100), sampleCustomer)
    ∧ ∃ txD custD txC custC,
        add_transaction sampleCustomer
            { defaultConfig with benefit_type := "discount" } 1 100 "" 5
          = Except.ok (txD, custD)
        ∧ add_transaction sampleCustomer
            { defaultConfig with benefit_type := "cashback" } 1 100 "" 5
          = Except.ok (txC, custC)
        ∧ custD = custC
        ∧ txC = { txD with benefit_type := "cashback" } :=
  C7_discount_cashback_equivalent sampleCustomer defaultConfig 100 1 5 ""
    (by norm_num)

/-- C8: `get_current_config` is idempotent — a second call with no
intervening update returns the same configuration and leaves the store
untouched, so no second active policy is ever created — and when no active
configuration exists the first call persists exactly one default
configuration carrying the documented default fields. -/
theorem C8_get_current_config_idempotent (store : List LoyaltyConfig) :
    (get_current_config (get_current_config store).2).1 = (get_current_config store).1
    ∧ (get_current_config (get_current_config store).2).2 = (get_current_config store).2
    ∧ (store.find? (fun cfg => cfg.active) = none →
        (get_current_config store).1 = defaultConfig
        ∧ (get_current_config store).2 = store ++ [defaultConfig])
    ∧ defaultConfig.benefit_type = "points"
    ∧ defaultConfig.points_per_real = 10
    ∧ defaultConfig.silver_threshold = 500
    ∧ defaultConfig.gold_threshold = 1500
    ∧ defaultConfig.diamond_threshold = 3000
    ∧ defaultConfig.bronze_discount = 5
    ∧ defaultConfig.silver_discount = 10
    ∧ defaultConfig.gold_discount = 15
    ∧ defaultConfig.diamond_discount = 20 := by
  refine ⟨?_, ?_, ?_, rfl, rfl, rfl, rfl, rfl, rfl, rfl, rfl, rfl⟩ <;>
    cases h : store.find? (fun cfg => cfg.active) <;>
    simp [get_current_config, h, List.find?_append, defaultConfig]

/-- C8 witness: the empty store — the first call materialises the default
configuration, the second call finds it. -/
theorem C8_get_current_config_idempotent_witness :
    (get_current_config (get_current_config []).2).1 = (get_current_config []).1
    ∧ (get_current_config (get_current_config []).2).2 = (get_current_config []).2
    ∧ (([] : List LoyaltyConfig).find? (fun cfg => cfg.active) = none →
        (get_current_config []).1 = defaultConfig
        ∧ (get_current_config []).2 = [] ++ [defaultConfig])
    ∧ defaultConfig.benefit_type = "points"
    ∧ defaultConfig.points_per_real = 10
    ∧ defaultConfig.silver_threshold = 500
    ∧ defaultConfig.gold_threshold = 1500
    ∧ defaultConfig.diamond_threshold = 3000
    ∧ defaultConfig.bronze_discount = 5
    ∧ defaultConfig.silver_discount = 10
    ∧ defaultConfig.gold_discount = 15
    ∧ defaultConfig.diamond_discount = 20 :=
  C8_get_current_config_idempotent []

/-- C9: for any string whose digits-only form has exactly 11 digits,
formatting, normalising and formatting again reproduces the first
formatting — `format_cpf (digitsOnly (format_cpf x)) = format_cpf x`. -/
theorem C9_format_cpf_roundtrip (x : List Char)
    (h : (digitsOnly x).length = 11) :
    format_cpf (digitsOnly (format_cpf x)) = format_cpf x := by
  have hall : ∀ ch ∈ digitsOnly x, ch.isDigit :=
    fun _ hch => (List.mem_filter.mp hch).2
  have t1 : (digitsOnly x).take 3 ++ ((digitsOnly x).drop 3).take 3
      = (digitsOnly x).take 6 := (List.take_add (digitsOnly x) 3 3).symm
  have t2 : (digitsOnly x).take 6 ++ ((digitsOnly x).drop 6).take 3
      = (digitsOnly x).take 9 := (List.take_add (digitsOnly x) 6 3).symm
  have hgroup : (digitsOnly x).take 3 ++ ((digitsOnly x).drop 3).take 3
      ++ ((digitsOnly x).drop 6).take 3 ++ (digitsOnly x).drop 9
      = digitsOnly x := by
    rw [t1, t2, List.take_append_drop]
  have hfx : format_cpf x = (digitsOnly x).take 3 ++ ['.']
      ++ ((digitsOnly x).drop 3).take 3 ++ ['.'] ++ ((digitsOnly x).drop 6).take 3
      ++ ['-'] ++ (digitsOnly x).drop 9 := by
    simp only [format_cpf]
    rw [if_pos h]
  have hdot : digitsOnly ['.'] = [] := rfl
  have hdash : digitsOnly ['-'] = [] := rfl
  have hback : digitsOnly (format_cpf x) = digitsOnly x := by
    rw [hfx]
    simp only [digitsOnly_append, hdot, hdash, List.append_nil]
    rw [digitsOnly_of_all_digits _ (fun ch hch => hall ch (List.mem_of_mem_take hch)),
      digitsOnly_of_all_digits _ (fun ch hch => hall ch
        (List.mem_of_mem_drop (List.mem_of_mem_take hch))),
      digitsOnly_of_all_digits _ (fun ch hch => hall ch
        (List.mem_of_mem_drop (List.mem_of_mem_take hch))),
      digitsOnly_of_all_digits _ (fun ch hch => hall ch (List.mem_of_mem_drop hch))]
    exact hgroup
  rw [hback]
  have hlen2 : (digitsOnly (digitsOnly x)).length = 11 := by
    rw [digitsOnly_idem]
    exact h
  simp only [format_cpf]
  rw [if_pos hlen2, if_pos h, digitsOnly_idem]

/-- C9 witness: the round trip at the already-formatted valid cpf string
123.456.789-09, whose digits-only form has 11 digits. -/
theorem C9_format_cpf_roundtrip_witness :
    (digitsOnly ("123.456.789-09".toList)).length = 11
    ∧ format_cpf (digitsOnly (format_cpf ("123.456.789-09".toList)))
      = format_cpf ("123.456.789-09".toList) :=
  ⟨by decide, C9_format_cpf_roundtrip ("123.456.789-09".toList) (by decide)⟩

/-- C10: any input whose digits-only form is eleven copies of one digit is
rejected by `validate_cpf` (so registration with it always fails), even
though the all-ones string satisfies the checksum comparison that the
validator otherwise applies (last conjunct). -/
theorem C10_repeated_digit_rejected (x : List Char) (ch : Char)
    (store : List Customer) (fn : String) (ph : List Char) (em : String)
    (p : ℤ) (cust : Customer) (st2 : List Customer)
    (h : digitsOnly x = List.replicate 11 ch) :
    validate_cpf x = false
    ∧ create_customer store fn x ph em p ≠ Except.ok (cust, st2)
    ∧ (List.replicate 11 '1').drop 9
        = [natDigitChar (cpf_digit1 (List.replicate 11 '1')),
           natDigitChar (cpf_digit2 (List.replicate 11 '1'))] := by
  have hv : validate_cpf (digitsOnly x) = false :=
    validate_cpf_all_same _ ch (by rw [digitsOnly_idem, h])
  refine ⟨validate_cpf_all_same x ch h, ?_, by decide⟩
  intro hcontr
  simp only [create_customer] at hcontr
  split_ifs at hcontr

/-- C10 witness: the all-ones national id 11111111111. -/
theorem C10_repeated_digit_rejected_witness :
    validate_cpf (List.replicate 11 '1') = false
    ∧ create_customer [] "A" (List.replicate 11 '1') ("11987654321".toList) "" 0
        ≠ Except.ok (sampleCustomer, [])
    ∧ (List.replicate 11 '1').drop 9
        = [natDigitChar (cpf_digit1 (List.replicate 11 '1')),
           natDigitChar (cpf_digit2 (List.replicate 11 '1'))] :=
  C10_repeated_digit_rejected (List.replicate 11 '1') '1' [] "A"
    ("11987654321".toList) "" 0 sampleCustomer [] (by decide)

end Kaseirim
